import Mathlib

/-!
Verification of the rustrade benchmark-orchestration harness
(src/scripts/compare_strategies.py and src/scripts/validate_risk_filter.py)
against its natural-language specification.

The Python scripts are shallowly embedded: captured text is a list of
characters, Python floats are modelled as rationals, the regular
expression

  Return:\s*([-\d.]+)%.*?Net:\s*\$([-\d.]+).*?Trades:\s*(\d+)

is embedded as an explicit matcher specialised to this pattern (with the
backtracking behaviour of Python's re engine reproduced for exactly this
pattern: the character classes of the greedy pieces are disjoint from the
characters that follow them, so each greedy piece is maximal munch, and
each lazy .*? piece is a leftmost search over non-newline characters that
retries the whole continuation at every stop position), and the external
evaluator invocation is modelled by an oracle value describing its
observable result (exit code, captured stdout and stderr, timeout, or
launch failure).
-/

namespace Rustrade

/-- Character class of the regex token \s restricted to the ASCII
whitespace characters (the benchmark reports are ASCII). -/
def isSpaceChar (c : Char) : Bool :=
  c = ' ' || c = '\t' || c = '\n' || c = '\r' || c = '\x0b' || c = '\x0c'

/-- Character class of the regex token [-\d.] used by the capture groups
for the return percentage and the net dollar amount (ASCII digits). -/
def isNumChar (c : Char) : Bool :=
  c.isDigit || c = '-' || c = '.'

/-- Matcher for a literal piece of the pattern: strips the literal l from
the front of s, or fails. -/
def stripLit : List Char → List Char → Option (List Char)
  | [], s => some s
  | _ :: _, [] => none
  | c :: l, d :: s => if c = d then stripLit l s else none

/-- The literal piece Return: of the pattern. -/
def returnLit : List Char := ['R', 'e', 't', 'u', 'r', 'n', ':']

/-- The literal piece Net: of the pattern. -/
def netLit : List Char := ['N', 'e', 't', ':']

/-- The literal piece Trades: of the pattern. -/
def tradesLit : List Char := ['T', 'r', 'a', 'd', 'e', 's', ':']

/-- Matches the pattern piece Return:\s*([-\d.]+)% at the current
position: the literal, then maximal whitespace, then a maximal nonempty
run of [-\d.] characters that must be followed by a percent sign.
Returns the captured group together with the remaining text.  Maximal
munch is faithful to the greedy regex pieces because \s, [-\d.] and the
percent sign are pairwise disjoint character classes. -/
def matchReturnHead (s : List Char) : Option (List Char × List Char) :=
  match stripLit returnLit s with
  | none => none
  | some s1 =>
    let s2 := s1.dropWhile isSpaceChar
    let g := s2.takeWhile isNumChar
    match s2.dropWhile isNumChar with
    | '%' :: s4 => if g.isEmpty then none else some (g, s4)
    | _ => none

/-- Matches the pattern piece Net:\s*\$([-\d.]+) at the current position:
the literal, maximal whitespace, a dollar sign, then a maximal nonempty
run of [-\d.] characters.  Returns the captured group and the rest. -/
def matchNet (s : List Char) : Option (List Char × List Char) :=
  match stripLit netLit s with
  | none => none
  | some s1 =>
    match s1.dropWhile isSpaceChar with
    | '$' :: s3 =>
      let g := s3.takeWhile isNumChar
      if g.isEmpty then none else some (g, s3.dropWhile isNumChar)
    | _ => none

/-- Matches the pattern piece Trades:\s*(\d+) at the current position:
the literal, maximal whitespace, then a maximal nonempty run of digits,
which is the captured group. -/
def matchTrades (s : List Char) : Option (List Char) :=
  match stripLit tradesLit s with
  | none => none
  | some s1 =>
    let g := (s1.dropWhile isSpaceChar).takeWhile Char.isDigit
    if g.isEmpty then none else some g

/-- Lazy .*? search: the continuation k is tried at the current position
first; on failure one character is skipped, but only if it is not a
newline, because the regex token . does not match a newline (the pattern
is compiled without DOTALL). -/
def lazySearch (k : List Char → Option α) : List Char → Option α
  | [] => k []
  | c :: t =>
    match k (c :: t) with
    | some r => some r
    | none => if c = '\n' then none else lazySearch k t

/-- Continuation matched by the first .*? of the pattern: the Net: piece
followed by the lazy search for the Trades: piece.  Returns the captured
net group and trades group. -/
def netCont (s : List Char) : Option (List Char × List Char) :=
  match matchNet s with
  | none => none
  | some (g2, rest) => (lazySearch matchTrades rest).map (fun g3 => (g2, g3))

/-- Attempts the whole pattern anchored at the current position.  Returns
the three captured groups on success. -/
def matchAt (s : List Char) : Option (List Char × List Char × List Char) :=
  match matchReturnHead s with
  | none => none
  | some (g1, rest) => (lazySearch netCont rest).map (fun p => (g1, p.1, p.2))

/-- Embedding of re.search for this pattern: the anchored match is tried
at every position of the text, left to right, and the leftmost success
wins. -/
def reSearch : List Char → Option (List Char × List Char × List Char)
  | [] => matchAt []
  | c :: t =>
    match matchAt (c :: t) with
    | some r => some r
    | none => reSearch t

/-- Numeric value of a list of decimal digit characters, as computed by
Python's int() on a digits-only string. -/
def natOfDigits (l : List Char) : ℕ :=
  l.foldl (fun acc c => acc * 10 + (c.toNat - 48)) 0

/-- Python's float() conversion restricted to strings over the alphabet
[-\d.] that the capture groups produce, with the float value modelled as
a rational; none models the ValueError that float() raises on a
malformed string (for example a bare minus sign, a lone dot, two dots,
or a minus sign that is not leading). -/
def pyFloat? (s : List Char) : Option ℚ :=
  let neg : Bool := s.head? = some '-'
  let t := if neg then s.tail else s
  let ip := t.takeWhile Char.isDigit
  let core : Option ℚ :=
    match t.dropWhile Char.isDigit with
    | [] => if ip.isEmpty then none else some (natOfDigits ip)
    | '.' :: fp =>
      if fp.all Char.isDigit && !(ip.isEmpty && fp.isEmpty) then
        some ((natOfDigits ip : ℚ) + (natOfDigits fp : ℚ) / 10 ^ fp.length)
      else none
    | _ => none
  core.map (fun q => if neg then -q else q)

/-- Trial status as recorded in the status field of a result row:
SUCCESS, PARSE_ERROR, TIMEOUT, or the catch-all ERROR: reason produced
by the except Exception handler of run_benchmark. -/
inductive TrialStatus where
  | success
  | parseError
  | timeout
  | execError (reason : String)
deriving DecidableEq

/-- Result dictionary built by run_benchmark: a status plus the three
numeric fields, which are zero for every non-success status. -/
structure TrialOutcome where
  status : TrialStatus
  ret : ℚ
  net : ℚ
  trades : ℕ
deriving DecidableEq

/-- Message of the ValueError raised by float() on a malformed group. -/
def floatErr (g : List Char) : String :=
  "could not convert string to float: " ++ String.mk g

/-- Parsing-and-conversion step of run_benchmark applied to the combined
captured output: re.search for the pattern, then float() on the first
two groups and int() on the third.  No match yields the PARSE_ERROR
outcome with zero fields; a match whose group is rejected by float()
raises ValueError, which the enclosing except Exception handler of
run_benchmark turns into the ERROR outcome with zero fields. -/
def parseBenchmarkOutput (output : List Char) : TrialOutcome :=
  match reSearch output with
  | none => ⟨.parseError, 0, 0, 0⟩
  | some (g1, g2, g3) =>
    match pyFloat? g1, pyFloat? g2 with
    | some r, some n => ⟨.success, r, n, natOfDigits g3⟩
    | none, _ => ⟨.execError (floatErr g1), 0, 0, 0⟩
    | some _, none => ⟨.execError (floatErr g2), 0, 0, 0⟩

/-- Observable result of the external evaluator invocation performed by
subprocess.run: normal completion with an exit code and the captured
stdout and stderr, expiry of the 60 second deadline
(subprocess.TimeoutExpired), or any other launch-time fault. -/
inductive ExecResult where
  | completed (returncode : Int) (stdout stderr : List Char)
  | timedOut
  | launchFailure (reason : String)

/-- Embedding of run_benchmark given the observable behaviour of the
external process: on completion the combined stdout ++ stderr text is
parsed with no inspection of the exit code; a timeout yields the TIMEOUT
outcome; any other fault is caught by the except Exception handler and
yields the ERROR outcome.  All numeric fields default to zero on every
failure path. -/
def run_benchmark (r : ExecResult) : TrialOutcome :=
  match r with
  | .completed _ stdout stderr => parseBenchmarkOutput (stdout ++ stderr)
  | .timedOut => ⟨.timeout, 0, 0, 0⟩
  | .launchFailure e => ⟨.execError e, 0, 0, 0⟩

/-! ## Trial matrix, data model and configuration -/

/-- One entry of the PERIODS configuration list: a human-readable label
with the start and end dates it denotes. -/
structure Period where
  name : String
  startDate : String
  endDate : String
deriving DecidableEq

/-- One trial of the matrix: strategy, period label, symbol, and the
period's date range, as passed to the evaluator invocation and stored in
the result row. -/
structure TrialSpec where
  strategy : String
  period : String
  symbol : String
  startDate : String
  endDate : String
deriving DecidableEq

/-- A trial spec joined with its outcome: the unit of persistence. -/
structure TrialRecord where
  spec : TrialSpec
  outcome : TrialOutcome
deriving DecidableEq

/-- PERIODS configuration of compare_strategies.py. -/
def PERIODS : List Period :=
  [⟨"Election_Rally", "2024-11-06", "2024-12-06"⟩,
   ⟨"Oct_2024", "2024-10-01", "2024-10-31"⟩,
   ⟨"Sep_2024", "2024-09-01", "2024-09-30"⟩]

/-- SYMBOLS configuration of compare_strategies.py. -/
def SYMBOLS : List String := ["AAPL", "NVDA", "TSLA", "MSFT"]

/-- STRATEGIES configuration of compare_strategies.py. -/
def STRATEGIES : List String := ["advanced", "regime_adaptive"]

/-- PERIODS configuration of validate_risk_filter.py. -/
def VALIDATE_PERIODS : List Period :=
  [⟨"Election_Rally", "2024-11-06", "2024-12-06"⟩,
   ⟨"Oct_2024", "2024-10-01", "2024-10-31"⟩,
   ⟨"Sep_2024", "2024-09-01", "2024-09-30"⟩,
   ⟨"Aug_2024", "2024-08-01", "2024-08-31"⟩]

/-- SYMBOLS configuration of validate_risk_filter.py. -/
def VALIDATE_SYMBOLS : List String :=
  ["AAPL", "NVDA", "TSLA", "MSFT", "JPM", "GOOGL", "AMZN", "META"]

/-- Concatenation of the blocks produced by a loop body, one block per
element of the loop list, in list order: the shape of the nested for
loops that generate the trial matrix. -/
def crossAppend (f : α → List β) : List α → List β
  | [] => []
  | a :: l => f a ++ crossAppend f l

/-- The trial spec built for one loop iteration. -/
def mkSpec (strategy : String) (p : Period) (symbol : String) : TrialSpec :=
  ⟨strategy, p.name, symbol, p.startDate, p.endDate⟩

/-- Trial matrix of compare_strategies.py: for strategy in STRATEGIES,
for period in PERIODS, for symbol in SYMBOLS — strategy outermost,
periods next, symbols innermost. -/
def compareTrialSpecs (strategies : List String) (periods : List Period)
    (symbols : List String) : List TrialSpec :=
  crossAppend
    (fun st => crossAppend (fun p => symbols.map (mkSpec st p)) periods)
    strategies

/-- Trial matrix of validate_risk_filter.py: for period in PERIODS, for
symbol in SYMBOLS, with the strategy fixed to advanced by the command
line it builds. -/
def validateTrialSpecs (periods : List Period) (symbols : List String) :
    List TrialSpec :=
  crossAppend (fun p => symbols.map (mkSpec "advanced" p)) periods

/-- The record list accumulated by the main loop, one record per trial
in generation order: each spec is executed through run_benchmark, whose
observable external behaviour is supplied by the oracle. -/
def runMatrix (specs : List TrialSpec) (oracle : TrialSpec → ExecResult) :
    List TrialRecord :=
  specs.map (fun sp => ⟨sp, run_benchmark (oracle sp)⟩)

/-! ## Aggregator and reporter -/

/-- The successful-records filter: [r for r in rs if r.status == SUCCESS]. -/
def successfulOf (rs : List TrialRecord) : List TrialRecord :=
  rs.filter (fun r => r.outcome.status = .success)

/-- Summary statistics block printed per strategy: average return, total
profit, winner count, win rate (the code prints it multiplied by 100),
total trades and average trades per test, each computed over the list of
successful records passed in. -/
structure AggregateStats where
  avg_return : ℚ
  total_profit : ℚ
  winners : ℕ
  win_rate : ℚ
  total_trades : ℕ
  avg_trades : ℚ
deriving DecidableEq

/-- The statistics computed by the summary block of main over a list of
successful records. -/
def computeStats (successful : List TrialRecord) : AggregateStats :=
  let n : ℚ := successful.length
  let winners := successful.countP (fun r => 0 < r.outcome.ret)
  { avg_return := (successful.map (fun r => r.outcome.ret)).sum / n
    total_profit := (successful.map (fun r => r.outcome.net)).sum
    winners := winners
    win_rate := (winners : ℚ) / n
    total_trades := (successful.map (fun r => r.outcome.trades)).sum
    avg_trades := ((successful.map (fun r => r.outcome.trades)).sum : ℚ) / n }

/-- The win-rate expression winners / len(successful) of main, as a
fraction of the successful records (the print statement scales it by 100
for display). -/
def winRateOf (rs : List TrialRecord) : ℚ :=
  let successful := successfulOf rs
  ((successful.countP (fun r => 0 < r.outcome.ret) : ℚ)) / (successful.length : ℚ)

/-- One line of the console summary report, abstracted from its exact
formatting: either a statistics block for a strategy, or the explicit
no-successful-tests indication. -/
inductive ReportLine where
  | stats (strategy : String) (s : AggregateStats)
  | noSuccess
deriving DecidableEq

/-- Per-strategy block of the COMPARISON SUMMARY section of
compare_strategies.py: the statistics are printed only when the strategy
has at least one successful record; otherwise nothing is printed for the
strategy. -/
def compareSummary (strategy : String) (records : List TrialRecord) :
    List ReportLine :=
  let successful := successfulOf records
  if successful.isEmpty then [] else [.stats strategy (computeStats successful)]

/-- Summary section of validate_risk_filter.py: statistics when at least
one record succeeded, otherwise the explicit No successful tests
message. -/
def validateSummary (records : List TrialRecord) : List ReportLine :=
  let successful := successfulOf records
  if successful.isEmpty then [.noSuccess]
  else [.stats "advanced" (computeStats successful)]

/-- Per-period filter of the PERIOD BREAKDOWN section: records of the
given period label that succeeded. -/
def periodSuccessful (records : List TrialRecord) (period : String) :
    List TrialRecord :=
  records.filter (fun r => r.spec.period = period ∧ r.outcome.status = .success)

/-! ## Result sink (CSV persistence) -/

/-- One cell of the persisted CSV table, keeping the value's type. -/
inductive CsvCell where
  | str (s : String)
  | num (q : ℚ)
  | nat (n : ℕ)
deriving DecidableEq

/-- The status string written to the status column. -/
def statusStr : TrialStatus → String
  | .success => "SUCCESS"
  | .parseError => "PARSE_ERROR"
  | .timeout => "TIMEOUT"
  | .execError e => "ERROR: " ++ e

/-- Column schema of compare_strategies.py (the fieldnames argument of
its csv.DictWriter). -/
def compareFieldnames : List String :=
  ["strategy", "period", "symbol", "return", "net", "trades", "status"]

/-- Column schema of validate_risk_filter.py (the fieldnames argument of
its csv.DictWriter). -/
def validateFieldnames : List String :=
  ["period", "symbol", "start_date", "end_date", "return", "net", "trades", "status"]

/-- One data row of the compare_strategies.py table, in column order. -/
def compareRow (r : TrialRecord) : List CsvCell :=
  [.str r.spec.strategy, .str r.spec.period, .str r.spec.symbol,
   .num r.outcome.ret, .num r.outcome.net, .nat r.outcome.trades,
   .str (statusStr r.outcome.status)]

/-- One data row of the validate_risk_filter.py table, in column order. -/
def validateRow (r : TrialRecord) : List CsvCell :=
  [.str r.spec.period, .str r.spec.symbol, .str r.spec.startDate,
   .str r.spec.endDate, .num r.outcome.ret, .num r.outcome.net,
   .nat r.outcome.trades, .str (statusStr r.outcome.status)]

/-- The full compare_strategies.py CSV: header row then one row per
record in list order. -/
def compareCsv (records : List TrialRecord) : List (List CsvCell) :=
  (compareFieldnames.map CsvCell.str) :: records.map compareRow

/-- The full validate_risk_filter.py CSV: header row then one row per
record in list order. -/
def validateCsv (records : List TrialRecord) : List (List CsvCell) :=
  (validateFieldnames.map CsvCell.str) :: records.map validateRow

/-- The fixed results directory both scripts create with
mkdir(exist_ok=True). -/
def RESULTS_DIR : String := "benchmark_results"

/-- Timestamp-qualified result file path of compare_strategies.py. -/
def compareResultsFile (timestamp : String) : String :=
  RESULTS_DIR ++ "/strategy_comparison_" ++ timestamp ++ ".csv"

/-- Timestamp-qualified result file path of validate_risk_filter.py. -/
def validateResultsFile (timestamp : String) : String :=
  RESULTS_DIR ++ "/risk_filter_validation_" ++ timestamp ++ ".csv"

/-! ## Helper lemmas about the matcher -/

theorem stripLit_append (l s : List Char) : stripLit l (l ++ s) = some s := by
  induction l with
  | nil => rfl
  | cons c l ih => simp [stripLit, ih]

theorem lazySearch_of_k {k : List Char → Option α} {l : List Char} {r : α}
    (h : k l = some r) : lazySearch k l = some r := by
  cases l <;> simp [lazySearch, h]

theorem lazySearch_eq_drop (k : List Char → Option α) (n : ℕ) :
    ∀ l : List Char, (∀ i, i < n → k (l.drop i) = none) →
      (∀ ch ∈ l.take n, ch ≠ '\n') →
      lazySearch k l = lazySearch k (l.drop n) := by
  induction n with
  | zero => intro l _ _; simp
  | succ n ih =>
    intro l hk hnl
    match l with
    | [] => simp
    | c :: t =>
      have h0 : k (c :: t) = none := by simpa using hk 0 (Nat.succ_pos n)
      have hc : c ≠ '\n' := hnl c (by simp)
      have ht := ih t (fun i hi => by simpa using hk (i + 1) (by omega))
        (fun ch hch => hnl ch (by simp [hch]))
      simp [lazySearch, h0, hc, ht]

theorem reSearch_of_matchAt {l : List Char} {r : List Char × List Char × List Char}
    (h : matchAt l = some r) : reSearch l = some r := by
  cases l <;> simp [reSearch, h]

theorem reSearch_eq_drop (n : ℕ) :
    ∀ l : List Char, (∀ i, i < n → matchAt (l.drop i) = none) →
      reSearch l = reSearch (l.drop n) := by
  induction n with
  | zero => intro l _; simp
  | succ n ih =>
    intro l hk
    match l with
    | [] => simp
    | c :: t =>
      have h0 : matchAt (c :: t) = none := by simpa using hk 0 (Nat.succ_pos n)
      have ht := ih t (fun i hi => by simpa using hk (i + 1) (by omega))
      simp [reSearch, h0, ht]

/-! ## Helper lemmas about the matrix generator -/

theorem crossAppend_length_const (f : α → List β) (n : ℕ) (h : ∀ a, (f a).length = n) :
    ∀ l : List α, (crossAppend f l).length = l.length * n := by
  intro l
  induction l with
  | nil => simp [crossAppend]
  | cons a t ih =>
    simp only [crossAppend, List.length_append, List.length_cons, h, ih]
    ring

theorem crossAppend_getElem? (f : α → List β) (n : ℕ) (h : ∀ a, (f a).length = n) :
    ∀ (l : List α) (i j : ℕ), j < n →
      (crossAppend f l)[i * n + j]? = l[i]?.bind (fun a => (f a)[j]?) := by
  intro l
  induction l with
  | nil => intro i j _; simp [crossAppend]
  | cons a t ih =>
    intro i j hj
    match i with
    | 0 =>
      have hlt : 0 * n + j < (f a).length := by rw [h]; omega
      simp only [crossAppend]
      rw [List.getElem?_append_left hlt]
      simp
    | i + 1 =>
      have harith : (i + 1) * n + j = n + (i * n + j) := by ring
      have hle : (f a).length ≤ (i + 1) * n + j := by rw [h]; omega
      simp only [crossAppend]
      rw [List.getElem?_append_right hle, h, harith]
      simp only [Nat.add_sub_cancel_left]
      rw [ih i j hj]
      simp

/-! ## Helper lemmas about the aggregator -/

theorem successful_length (rs : List TrialRecord) :
    (successfulOf rs).length
      = rs.countP (fun r => decide (r.outcome.status = .success)) := by
  simp [successfulOf, ← List.countP_eq_length_filter]

theorem successful_winners (rs : List TrialRecord) :
    (successfulOf rs).countP (fun r => decide (0 < r.outcome.ret))
      = rs.countP (fun r => decide (r.outcome.status = .success ∧ 0 < r.outcome.ret)) := by
  induction rs with
  | nil => rfl
  | cons r t ih =>
    by_cases hs : r.outcome.status = .success
    · by_cases hr : (0 : ℚ) < r.outcome.ret
      · simp [successfulOf, List.filter_cons, List.countP_cons, hs, hr] at ih ⊢
        omega
      · simp [successfulOf, List.filter_cons, List.countP_cons, hs, hr] at ih ⊢
        exact ih
    · simp [successfulOf, List.filter_cons, List.countP_cons, hs] at ih ⊢
      exact ih

theorem successfulOf_middle (rs1 rs2 : List TrialRecord) (r : TrialRecord)
    (hr : r.outcome.status ≠ .success) :
    successfulOf (rs1 ++ r :: rs2) = successfulOf (rs1 ++ rs2) := by
  simp [successfulOf, List.filter_append, List.filter_cons, hr]

theorem periodSuccessful_middle (rs1 rs2 : List TrialRecord) (r : TrialRecord)
    (p : String) (hr : r.outcome.status ≠ .success) :
    periodSuccessful (rs1 ++ r :: rs2) p = periodSuccessful (rs1 ++ rs2) p := by
  simp [periodSuccessful, List.filter_append, List.filter_cons, hr]

/-! ## Claims -/

/-- C6: for every trial execution that completes within the deadline,
the evaluator's exit code plays no role: the outcome is the parse of the
combined stdout ++ stderr text, and is identical for any two exit
codes. -/
theorem claim_C6_exit_code_ignored (rc rc' : Int) (stdout stderr : List Char) :
    run_benchmark (.completed rc stdout stderr) = parseBenchmarkOutput (stdout ++ stderr)
      ∧ run_benchmark (.completed rc stdout stderr)
          = run_benchmark (.completed rc' stdout stderr) :=
  ⟨rfl, rfl⟩

/-- C5: the parser is a total function, and it returns the PARSE_ERROR
outcome with all numeric fields zero exactly when the three-field
pattern has no match in the raw text. -/
theorem claim_C5_parse_total (t : List Char) :
    parseBenchmarkOutput t = ⟨.parseError, 0, 0, 0⟩ ↔ reSearch t = none := by
  constructor
  · intro h
    cases hm : reSearch t with
    | none => rfl
    | some g =>
      obtain ⟨g1, g2, g3⟩ := g
      exfalso
      unfold parseBenchmarkOutput at h
      rw [hm] at h
      cases h1 : pyFloat? g1 <;> cases h2 : pyFloat? g2 <;> simp [h1, h2] at h
  · intro h
    unfold parseBenchmarkOutput
    rw [h]

/-- Records used by the concrete win-rate scenario of the spec: two
successful trials with returns +1 and -1, and one timed-out trial. -/
def winRateScenario : List TrialRecord :=
  [⟨⟨"advanced", "P1", "AAA", "2024-01-01", "2024-01-31"⟩, ⟨.success, 1, 0, 0⟩⟩,
   ⟨⟨"advanced", "P1", "BBB", "2024-01-01", "2024-01-31"⟩, ⟨.success, -1, 0, 0⟩⟩,
   ⟨⟨"advanced", "P1", "CCC", "2024-01-01", "2024-01-31"⟩, ⟨.timeout, 0, 0, 0⟩⟩]

/-- C3: the win rate is the number of successful records with strictly
positive return divided by the number of successful records only; on the
scenario with records Success(+1), Success(-1), Timeout it is 1/2 and
not 1/3 (the value a full-matrix denominator would give). -/
theorem claim_C3_win_rate (rs : List TrialRecord) :
    winRateOf rs
        = (rs.countP (fun r => decide (r.outcome.status = .success ∧ 0 < r.outcome.ret)) : ℚ)
          / (rs.countP (fun r => decide (r.outcome.status = .success)) : ℚ)
      ∧ winRateOf winRateScenario = 1 / 2
      ∧ winRateOf winRateScenario ≠ 1 / 3 := by
  refine ⟨?_, ?_, ?_⟩
  · simp only [winRateOf, successful_winners, successful_length]
  · simp +decide [winRateOf, successfulOf, winRateScenario]
  · simp +decide [winRateOf, successfulOf, winRateScenario]

/-- A one-trial run in which the only trial timed out: no record is
successful. -/
def failedOnlyRun : List TrialRecord :=
  [⟨⟨"advanced", "Election_Rally", "AAPL", "2024-11-06", "2024-12-06"⟩,
    ⟨.timeout, 0, 0, 0⟩⟩]

/-- C4 counterexample: on a run where every trial failed,
compare_strategies.py prints nothing at all for the strategy in its
COMPARISON SUMMARY section — its summary block is empty and contains no
no-successful-tests indication, contrary to the claim that every run
with zero Success records emits one. -/
theorem claim_C4_counterexample :
    compareSummary "advanced" failedOnlyRun = []
      ∧ ReportLine.noSuccess ∉ compareSummary "advanced" failedOnlyRun := by
  constructor
  · decide
  · decide

/-- C4 amended: when a run has zero Success records neither script
divides by zero or prints zero-valued statistics: validate_risk_filter.py
prints the explicit No successful tests indication, while
compare_strategies.py silently omits the strategy's statistics block
altogether. -/
theorem claim_C4_amended (strategy : String) (records : List TrialRecord)
    (h : successfulOf records = []) :
    validateSummary records = [.noSuccess]
      ∧ compareSummary strategy records = [] := by
  constructor <;> simp [validateSummary, compareSummary, h]

/-- C4 witness: the amended claim instantiated on the concrete all-failed
run. -/
theorem claim_C4_amended_witness :
    successfulOf failedOnlyRun = []
      ∧ (validateSummary failedOnlyRun = [.noSuccess]
          ∧ compareSummary "advanced" failedOnlyRun = []) :=
  ⟨by decide, claim_C4_amended "advanced" failedOnlyRun (by decide)⟩

/-- C7 counterexample: the persisted table of validate_risk_filter.py
does not have the claimed column schema — its header row is
period, symbol, start_date, end_date, return, net, trades, status. -/
theorem claim_C7_counterexample :
    validateFieldnames ≠ ["strategy", "period", "symbol", "return", "net", "trades", "status"]
      ∧ (validateCsv []).head? = some (validateFieldnames.map CsvCell.str)
      ∧ validateFieldnames
          = ["period", "symbol", "start_date", "end_date", "return", "net", "trades", "status"] := by
  refine ⟨by decide, rfl, rfl⟩

/-- C7 amended: each script's persisted table has a header row followed
by one row per trial record in generation order, written to a
timestamp-qualified file under the fixed benchmark_results directory;
the columns are strategy, period, symbol, return, net, trades, status
for compare_strategies.py, while validate_risk_filter.py instead uses
period, symbol, start_date, end_date, return, net, trades, status. -/
theorem claim_C7_amended (records recordsV : List TrialRecord)
    (timestamp : String) (i : ℕ) :
    (compareCsv records).head? = some (compareFieldnames.map CsvCell.str)
      ∧ compareFieldnames = ["strategy", "period", "symbol", "return", "net", "trades", "status"]
      ∧ (compareCsv records).length = records.length + 1
      ∧ (compareCsv records)[i + 1]? = (records[i]?).map compareRow
      ∧ (validateCsv recordsV).head? = some (validateFieldnames.map CsvCell.str)
      ∧ (validateCsv recordsV).length = recordsV.length + 1
      ∧ (validateCsv recordsV)[i + 1]? = (recordsV[i]?).map validateRow
      ∧ compareResultsFile timestamp
          = "benchmark_results/strategy_comparison_" ++ timestamp ++ ".csv"
      ∧ validateResultsFile timestamp
          = "benchmark_results/risk_filter_validation_" ++ timestamp ++ ".csv" := by
  exact ⟨rfl, rfl, by simp [compareCsv], by simp [compareCsv], rfl,
    by simp [validateCsv], by simp [validateCsv], rfl, rfl⟩

/-- Every non-success outcome produced by run_benchmark has zero in all
three numeric fields, whatever the external behaviour was. -/
theorem run_benchmark_nonsuccess_zero (e : ExecResult)
    (he : (run_benchmark e).status ≠ .success) :
    (run_benchmark e).ret = 0 ∧ (run_benchmark e).net = 0
      ∧ (run_benchmark e).trades = 0 := by
  cases e with
  | completed rc stdout stderr =>
    simp only [run_benchmark] at he ⊢
    cases hm : reSearch (stdout ++ stderr) with
    | none => simp [parseBenchmarkOutput, hm]
    | some g =>
      obtain ⟨g1, g2, g3⟩ := g
      unfold parseBenchmarkOutput at he ⊢
      rw [hm] at he ⊢
      cases h1 : pyFloat? g1 <;> cases h2 : pyFloat? g2 <;> simp [h1, h2] at he ⊢
  | timedOut => simp [run_benchmark]
  | launchFailure e => simp [run_benchmark]

/-- C8: a record with a non-success status has zero numeric fields;
inserting such a record anywhere in a run changes neither the
successful-records list, nor any summary statistic, nor the win rate,
nor any per-period breakdown subset — yet its row, failure status
included, is present in the persisted table. -/
theorem claim_C8_failures_excluded_but_persisted (e : ExecResult)
    (rs1 rs2 : List TrialRecord) (r : TrialRecord) (p : String)
    (he : (run_benchmark e).status ≠ .success)
    (hr : r.outcome.status ≠ .success) :
    ((run_benchmark e).ret = 0 ∧ (run_benchmark e).net = 0
        ∧ (run_benchmark e).trades = 0)
      ∧ successfulOf (rs1 ++ r :: rs2) = successfulOf (rs1 ++ rs2)
      ∧ computeStats (successfulOf (rs1 ++ r :: rs2))
          = computeStats (successfulOf (rs1 ++ rs2))
      ∧ winRateOf (rs1 ++ r :: rs2) = winRateOf (rs1 ++ rs2)
      ∧ periodSuccessful (rs1 ++ r :: rs2) p = periodSuccessful (rs1 ++ rs2) p
      ∧ compareRow r ∈ compareCsv (rs1 ++ r :: rs2)
      ∧ validateRow r ∈ validateCsv (rs1 ++ r :: rs2) := by
  have hmid := successfulOf_middle rs1 rs2 r hr
  refine ⟨run_benchmark_nonsuccess_zero e he, hmid, by rw [hmid], ?_,
    periodSuccessful_middle rs1 rs2 r p hr, ?_, ?_⟩
  · simp only [winRateOf, hmid]
  · simp only [compareCsv, List.mem_cons, List.mem_map]
    exact Or.inr ⟨r, by simp, rfl⟩
  · simp only [validateCsv, List.mem_cons, List.mem_map]
    exact Or.inr ⟨r, by simp, rfl⟩

/-- C8 witness: the claim instantiated on a concrete timed-out execution
and a concrete record list. -/
theorem claim_C8_witness :
    (run_benchmark .timedOut).status ≠ .success
      ∧ (failedOnlyRun.get ⟨0, by decide⟩).outcome.status ≠ .success
      ∧ (((run_benchmark .timedOut).ret = 0 ∧ (run_benchmark .timedOut).net = 0
            ∧ (run_benchmark .timedOut).trades = 0)
          ∧ successfulOf ([] ++ failedOnlyRun.get ⟨0, by decide⟩ :: winRateScenario)
              = successfulOf ([] ++ winRateScenario)
          ∧ computeStats (successfulOf ([] ++ failedOnlyRun.get ⟨0, by decide⟩ :: winRateScenario))
              = computeStats (successfulOf ([] ++ winRateScenario))
          ∧ winRateOf ([] ++ failedOnlyRun.get ⟨0, by decide⟩ :: winRateScenario)
              = winRateOf ([] ++ winRateScenario)
          ∧ periodSuccessful ([] ++ failedOnlyRun.get ⟨0, by decide⟩ :: winRateScenario) "P1"
              = periodSuccessful ([] ++ winRateScenario) "P1"
          ∧ compareRow (failedOnlyRun.get ⟨0, by decide⟩)
              ∈ compareCsv ([] ++ failedOnlyRun.get ⟨0, by decide⟩ :: winRateScenario)
          ∧ validateRow (failedOnlyRun.get ⟨0, by decide⟩)
              ∈ validateCsv ([] ++ failedOnlyRun.get ⟨0, by decide⟩ :: winRateScenario)) :=
  ⟨by decide, by decide,
    claim_C8_failures_excluded_but_persisted .timedOut [] winRateScenario
      (failedOnlyRun.get ⟨0, by decide⟩) "P1" (by decide) (by decide)⟩

/-- C1: the harness produces exactly one record per matrix cell —
|strategies| * |periods| * |symbols| records for compare_strategies.py
and |periods| * |symbols| for validate_risk_filter.py — and the
generation order is strategy outermost, then periods, then symbols
innermost: the cell at flat index i*(|periods|*|symbols|) + j*|symbols|
+ k is the spec built from strategy i, period j and symbol k. -/
theorem claim_C1_matrix_shape (strategies symbols : List String)
    (periods : List Period) (oracle oracleV : TrialSpec → ExecResult)
    (i j k : ℕ) (hj : j < periods.length) (hk : k < symbols.length) :
    (runMatrix (compareTrialSpecs strategies periods symbols) oracle).length
        = strategies.length * periods.length * symbols.length
      ∧ (runMatrix (validateTrialSpecs periods symbols) oracleV).length
          = periods.length * symbols.length
      ∧ (compareTrialSpecs strategies periods symbols)[i * (periods.length * symbols.length)
            + j * symbols.length + k]?
          = strategies[i]?.bind (fun st => periods[j]?.bind
              (fun p => symbols[k]?.map (fun sym => mkSpec st p sym)))
      ∧ (validateTrialSpecs periods symbols)[j * symbols.length + k]?
          = periods[j]?.bind (fun p => symbols[k]?.map (mkSpec "advanced" p)) := by
  have hlen1 : ∀ st : String,
      (crossAppend (fun p => symbols.map (mkSpec st p)) periods).length
        = periods.length * symbols.length := by
    intro st
    exact crossAppend_length_const _ symbols.length (fun p => by simp) periods
  have hidx1 : ∀ st : String,
      (crossAppend (fun p => symbols.map (mkSpec st p)) periods)[j * symbols.length + k]?
        = periods[j]?.bind (fun p => symbols[k]?.map (mkSpec st p)) := by
    intro st
    rw [crossAppend_getElem? _ symbols.length (fun p => by simp) periods j k hk]
    cases hp : periods[j]? with
    | none => simp
    | some p => simp [List.getElem?_map]
  refine ⟨?_, ?_, ?_, ?_⟩
  · simp only [runMatrix, List.length_map, compareTrialSpecs]
    rw [crossAppend_length_const _ (periods.length * symbols.length) hlen1 strategies]
    ring
  · simp only [runMatrix, List.length_map, validateTrialSpecs]
    exact crossAppend_length_const _ symbols.length (fun p => by simp) periods
  · have hjk : j * symbols.length + k < periods.length * symbols.length := by
      have h1 : (j + 1) * symbols.length = j * symbols.length + symbols.length := by ring
      have h2 : (j + 1) * symbols.length ≤ periods.length * symbols.length :=
        Nat.mul_le_mul_right _ hj
      omega
    simp only [compareTrialSpecs]
    rw [Nat.add_assoc]
    rw [crossAppend_getElem? _ (periods.length * symbols.length) hlen1 strategies
      i (j * symbols.length + k) hjk]
    cases hs : strategies[i]? with
    | none => simp
    | some st => simp [hidx1 st]
  · exact hidx1 "advanced"

/-- C1 witness: the claim instantiated on the configuration lists of the
scripts themselves, at cell (1, 2, 3), with an oracle that times every
trial out. -/
theorem claim_C1_matrix_shape_witness :
    2 < PERIODS.length ∧ 3 < SYMBOLS.length
      ∧ ((runMatrix (compareTrialSpecs STRATEGIES PERIODS SYMBOLS)
            (fun _ => .timedOut)).length
          = STRATEGIES.length * PERIODS.length * SYMBOLS.length
        ∧ (runMatrix (validateTrialSpecs PERIODS SYMBOLS) (fun _ => .timedOut)).length
            = PERIODS.length * SYMBOLS.length
        ∧ (compareTrialSpecs STRATEGIES PERIODS SYMBOLS)[1 * (PERIODS.length * SYMBOLS.length)
              + 2 * SYMBOLS.length + 3]?
            = STRATEGIES[1]?.bind (fun st => PERIODS[2]?.bind
                (fun p => SYMBOLS[3]?.map (fun sym => mkSpec st p sym)))
        ∧ (validateTrialSpecs PERIODS SYMBOLS)[2 * SYMBOLS.length + 3]?
            = PERIODS[2]?.bind (fun p => SYMBOLS[3]?.map (mkSpec "advanced" p))) :=
  ⟨by decide, by decide,
    claim_C1_matrix_shape STRATEGIES SYMBOLS PERIODS (fun _ => .timedOut)
      (fun _ => .timedOut) 1 2 3 (by decide) (by decide)⟩

/-- C9: the parser's result is the match at the leftmost position where
the anchored pattern succeeds: if the pattern fails at every position
before n and succeeds at position n with groups r, the search returns r,
whatever occurs later in the text; the outcome is a pure function of the
text. -/
theorem claim_C9_leftmost_match (s : List Char) (n : ℕ)
    (r : List Char × List Char × List Char)
    (hbefore : ∀ i, i < n → matchAt (s.drop i) = none)
    (hn : matchAt (s.drop n) = some r) :
    reSearch s = some r := by
  rw [reSearch_eq_drop n s hbefore]
  exact reSearch_of_matchAt hn

/-- Text with two full occurrences of the pattern, preceded by two noise
characters. -/
def twoMatchText : List Char :=
  "x\nReturn: 1% Net: $2 Trades: 3 Return: 9% Net: $8 Trades: 6".toList

/-- C9 witness: on a text containing two occurrences of the pattern the
search returns the groups of the first, ignoring the later one. -/
theorem claim_C9_leftmost_match_witness :
    (∀ i, i < 2 → matchAt (twoMatchText.drop i) = none)
      ∧ matchAt (twoMatchText.drop 2) = some (['1'], ['2'], ['3'])
      ∧ reSearch twoMatchText = some (['1'], ['2'], ['3']) :=
  ⟨by decide, by decide,
    claim_C9_leftmost_match twoMatchText 2 (['1'], ['2'], ['3']) (by decide) (by decide)⟩

/-- C10: when the pattern matches but a captured group is rejected by
float(), the ValueError is absorbed by the catch-all except handler of
run_benchmark: the outcome carries an ERROR status with the reason and
zero numeric fields, is not PARSE_ERROR, and no fault escapes (the
parse is a total function). -/
theorem claim_C10_float_fault_caught (t g1 g2 g3 : List Char)
    (hm : reSearch t = some (g1, g2, g3))
    (hf : pyFloat? g1 = none ∨ pyFloat? g2 = none) :
    ∃ reason, parseBenchmarkOutput t = ⟨.execError reason, 0, 0, 0⟩
      ∧ (parseBenchmarkOutput t).status ≠ .parseError
      ∧ (parseBenchmarkOutput t).status ≠ .success := by
  unfold parseBenchmarkOutput
  rw [hm]
  rcases hf with hf | hf
  · refine ⟨floatErr g1, ?_, ?_, ?_⟩ <;> simp [hf]
  · cases h1 : pyFloat? g1 with
    | none => refine ⟨floatErr g1, ?_, ?_, ?_⟩ <;> simp [h1]
    | some v => refine ⟨floatErr g2, ?_, ?_, ?_⟩ <;> simp [h1, hf]

/-- Captured text whose return group is the malformed number string
consisting of two minus signs. -/
def badFloatText : List Char := "Return: --% Net: $5 Trades: 2".toList

/-- C10 witness: on a concrete text whose matched return group is not a
valid float, the outcome is the ERROR status with zero fields. -/
theorem claim_C10_float_fault_caught_witness :
    reSearch badFloatText = some (['-', '-'], ['5'], ['2'])
      ∧ pyFloat? ['-', '-'] = none
      ∧ ∃ reason, parseBenchmarkOutput badFloatText = ⟨.execError reason, 0, 0, 0⟩
          ∧ (parseBenchmarkOutput badFloatText).status ≠ .parseError
          ∧ (parseBenchmarkOutput badFloatText).status ≠ .success :=
  ⟨by decide, by decide,
    claim_C10_float_fault_caught badFloatText ['-', '-'] ['5'] ['2']
      (by decide) (Or.inl (by decide))⟩

/-- The field occurrence Return: 3.21% named by the claim. -/
def retSeg : List Char := ['R', 'e', 't', 'u', 'r', 'n', ':', ' ', '3', '.', '2', '1', '%']

/-- The field occurrence Net: $42.10 named by the claim. -/
def netSeg : List Char := ['N', 'e', 't', ':', ' ', '$', '4', '2', '.', '1', '0']

/-- The field occurrence Trades: 7 named by the claim. -/
def tradesSeg : List Char := ['T', 'r', 'a', 'd', 'e', 's', ':', ' ', '7']

/-- C2 counterexample: intervening characters are not arbitrary.  A
newline between the fields defeats the match (the regex token . does
not cross newlines), giving PARSE_ERROR instead of the claimed Success;
an earlier occurrence of the pattern in the surrounding text wins, so
the parser reports 1.00/2.00/3 although the text contains the
3.21/42.10/7 fields; intervening or trailing number characters merge
into the captured groups, changing the net amount or the trade count. -/
theorem claim_C2_counterexample :
    parseBenchmarkOutput ("Return: 3.21%\nNet: $42.10 Trades: 7".toList)
        = ⟨.parseError, 0, 0, 0⟩
      ∧ parseBenchmarkOutput ("Return: 3.21%\nNet: $42.10 Trades: 7".toList)
          ≠ ⟨.success, 3.21, 42.10, 7⟩
      ∧ reSearch ("Return: 1.00% Net: $2.00 Trades: 3 and Return: 3.21% Net: $42.10 Trades: 7".toList)
          = some (['1', '.', '0', '0'], ['2', '.', '0', '0'], ['3'])
      ∧ reSearch ("Return: 3.21% Net: $42.105 Trades: 7".toList)
          = some (['3', '.', '2', '1'], ['4', '2', '.', '1', '0', '5'], ['7'])
      ∧ reSearch ("Return: 3.21% Net: $42.10 Trades: 72".toList)
          = some (['3', '.', '2', '1'], ['4', '2', '.', '1', '0'], ['7', '2']) := by
  refine ⟨by decide, by decide, by decide, by decide, by decide⟩

/-- C2 amended: the parser returns Success with return_pct 3.21,
net_pnl 42.10 and trade_count 7 on every text of the form
a ++ Return: 3.21% ++ b ++ Net: $42.10 ++ c ++ Trades: 7 ++ d in which
the pattern does not already match at a position inside the prefix a,
the intervening segments b and c contain no newline, no earlier
occurrence of the continuation being searched for begins inside b or c,
c does not begin with a digit, dot or minus sign, and d does not begin
with a digit; the three fields need not be contiguous. -/
theorem claim_C2_amended (a b c d : List Char)
    (ha : ∀ i, i < a.length →
      matchAt ((a ++ (retSeg ++ (b ++ (netSeg ++ (c ++ (tradesSeg ++ d)))))).drop i) = none)
    (hb1 : ∀ ch ∈ b, ch ≠ '\n')
    (hb2 : ∀ i, i < b.length →
      netCont ((b ++ (netSeg ++ (c ++ (tradesSeg ++ d)))).drop i) = none)
    (hc0 : (c.head?.all fun ch => !isNumChar ch) = true)
    (hc1 : ∀ ch ∈ c, ch ≠ '\n')
    (hc2 : ∀ i, i < c.length →
      matchTrades ((c ++ (tradesSeg ++ d)).drop i) = none)
    (hd0 : (d.head?.all fun ch => !ch.isDigit) = true) :
    parseBenchmarkOutput (a ++ (retSeg ++ (b ++ (netSeg ++ (c ++ (tradesSeg ++ d))))))
      = ⟨.success, 3.21, 42.10, 7⟩ := by
  have htr : matchTrades (tradesSeg ++ d) = some ['7'] := by
    have heq : tradesSeg ++ d = tradesLit ++ (' ' :: '7' :: d) := rfl
    unfold matchTrades
    rw [heq, stripLit_append]
    have hdw : (' ' :: '7' :: d).dropWhile isSpaceChar = '7' :: d := by
      simp +decide [List.dropWhile_cons]
    have htw : ('7' :: d).takeWhile Char.isDigit = ['7'] := by
      cases d with
      | nil => decide
      | cons ch d' =>
        have hch : ch.isDigit = false := by simpa using hd0
        simp +decide [List.takeWhile_cons, hch]
    simp [hdw, htw]
  have hlc : lazySearch matchTrades (c ++ (tradesSeg ++ d)) = some ['7'] := by
    have h1 := lazySearch_eq_drop matchTrades c.length (c ++ (tradesSeg ++ d)) hc2
      (by rw [List.take_left]; exact hc1)
    rw [List.drop_left] at h1
    rw [h1]
    exact lazySearch_of_k htr
  have hchead : ∀ ch ∈ (c ++ (tradesSeg ++ d)).head?, isNumChar ch = false := by
    cases c with
    | nil =>
      intro ch hch
      have h' : 'T' = ch := by simpa [tradesSeg] using hch
      subst h'
      decide
    | cons x c' =>
      intro ch hch
      have hx : x = ch := by simpa using hch
      subst hx
      simpa using hc0
  have htw0 : (c ++ (tradesSeg ++ d)).takeWhile isNumChar = [] := by
    cases hx : c ++ (tradesSeg ++ d) with
    | nil => simp
    | cons y ys =>
      have hy : isNumChar y = false := hchead y (by simp [hx])
      simp [List.takeWhile_cons, hy]
  have hdw0 : (c ++ (tradesSeg ++ d)).dropWhile isNumChar = c ++ (tradesSeg ++ d) := by
    cases hx : c ++ (tradesSeg ++ d) with
    | nil => simp
    | cons y ys =>
      have hy : isNumChar y = false := hchead y (by simp [hx])
      simp [List.dropWhile_cons, hy]
  have hnet : matchNet (netSeg ++ (c ++ (tradesSeg ++ d)))
      = some (['4', '2', '.', '1', '0'], c ++ (tradesSeg ++ d)) := by
    have heq : netSeg ++ (c ++ (tradesSeg ++ d))
        = netLit ++ (' ' :: '$' :: '4' :: '2' :: '.' :: '1' :: '0'
            :: (c ++ (tradesSeg ++ d))) := rfl
    unfold matchNet
    rw [heq, stripLit_append]
    simp +decide [List.dropWhile_cons, List.takeWhile_cons, htw0, hdw0]
  have hNetCont : netCont (netSeg ++ (c ++ (tradesSeg ++ d)))
      = some (['4', '2', '.', '1', '0'], ['7']) := by
    unfold netCont
    rw [hnet]
    simp [hlc]
  have hlb : lazySearch netCont (b ++ (netSeg ++ (c ++ (tradesSeg ++ d))))
      = some (['4', '2', '.', '1', '0'], ['7']) := by
    have h1 := lazySearch_eq_drop netCont b.length (b ++ (netSeg ++ (c ++ (tradesSeg ++ d)))) hb2
      (by rw [List.take_left]; exact hb1)
    rw [List.drop_left] at h1
    rw [h1]
    exact lazySearch_of_k hNetCont
  have hmatch : matchAt (retSeg ++ (b ++ (netSeg ++ (c ++ (tradesSeg ++ d)))))
      = some (['3', '.', '2', '1'], ['4', '2', '.', '1', '0'], ['7']) := by
    have heq : retSeg ++ (b ++ (netSeg ++ (c ++ (tradesSeg ++ d))))
        = returnLit ++ (' ' :: '3' :: '.' :: '2' :: '1' :: '%'
            :: (b ++ (netSeg ++ (c ++ (tradesSeg ++ d))))) := rfl
    unfold matchAt matchReturnHead
    rw [heq, stripLit_append]
    simp +decide [List.dropWhile_cons, List.takeWhile_cons, hlb]
  have hsearch : reSearch (a ++ (retSeg ++ (b ++ (netSeg ++ (c ++ (tradesSeg ++ d))))))
      = some (['3', '.', '2', '1'], ['4', '2', '.', '1', '0'], ['7']) := by
    rw [reSearch_eq_drop a.length _ ha, List.drop_left]
    exact reSearch_of_matchAt hmatch
  unfold parseBenchmarkOutput
  rw [hsearch]
  have hf1 : pyFloat? ['3', '.', '2', '1'] = some (3.21 : ℚ) := by
    simp +decide [pyFloat?, natOfDigits]
    norm_num
  have hf2 : pyFloat? ['4', '2', '.', '1', '0'] = some (42.10 : ℚ) := by
    simp +decide [pyFloat?, natOfDigits]
    norm_num
  have h7 : natOfDigits ['7'] = 7 := by decide
  simp [hf1, hf2, h7]

/-- C2 witness: the amended claim instantiated with concrete noise
around and between the three fields. -/
theorem claim_C2_amended_witness :
    (∀ ch ∈ " | ".toList, ch ≠ '\n')
      ∧ parseBenchmarkOutput ("log: ".toList ++ (retSeg ++ (" | ".toList
          ++ (netSeg ++ (" | ".toList ++ (tradesSeg ++ " done".toList))))))
          = ⟨.success, 3.21, 42.10, 7⟩ :=
  ⟨by decide,
    claim_C2_amended ("log: ".toList) (" | ".toList) (" | ".toList) (" done".toList)
      (by decide) (by decide) (by decide) (by decide) (by decide) (by decide) (by decide)⟩

end Rustrade
